import Mathlib

/-!
Shallow embedding of the release-manager-as-a-service core:
the naming resolver `getRcGheInfo`, the Create-RC orchestrator `createGheRc`,
the Promote-RC orchestrator, and the techdocs `createEventStream` progress
stream, together with theorems settling the specification claims.
-/

/-- The project's versioning strategy: semantic or calendar versioning. -/
inductive VersioningStrategy where
  | semver
  | calver
deriving DecidableEq, Repr

/-- A hosting project: organization/owner, repository name, and strategy. -/
structure Project where
  owner : String
  repo : String
  versioningStrategy : VersioningStrategy
deriving DecidableEq, Repr

/-- SEMVER_PARTS: which semver component a bump increments. -/
inductive BumpLevel where
  | major
  | minor
  | patch
deriving DecidableEq, Repr

/-- Parsed semver tag parts. -/
structure SemverTagParts where
  major : Nat
  minor : Nat
  patch : Nat
deriving DecidableEq, Repr

/-- A release as returned by the hosting provider (`GhGetReleaseResponse`):
the fields the createRc workflow reads. -/
structure GhGetReleaseResponse where
  tag_name : String
  target_commitish : String
  html_url : String
deriving DecidableEq, Repr

/-- Modelled from the spec: `getSemverTagParts` lives in
`helpers/tagParts/getSemverTagParts.ts`, which is not under `src/`.
Per the spec, `parseSemverTag(tagName) -> VersionTag | ParseError`: the tag
must match `<major>.<minor>.<patch>` with non-negative integers; anything
else is a parse error surfaced with the offending string. -/
def getSemverTagParts (tagName : String) : Except String SemverTagParts :=
  match (tagName.splitOn ".").map String.toNat? with
  | [some major, some minor, some patch] => .ok ⟨major, minor, patch⟩
  | _ => .error ("Invalid semver tag: " ++ tagName)

/-- Modelled from the spec: `getBumpedSemverTagParts` lives in
`helpers/getBumpedTag.ts`, which is not under `src/`. Per the spec,
`bumpSemver(tag, level)`: `major` yields {major+1,0,0}; `minor` yields
{major,minor+1,0}; `patch` yields {major,minor,patch+1}. -/
def getBumpedSemverTagParts (t : SemverTagParts) : BumpLevel → SemverTagParts
  | .major => ⟨t.major + 1, 0, 0⟩
  | .minor => ⟨t.major, t.minor + 1, 0⟩
  | .patch => ⟨t.major, t.minor, t.patch + 1⟩

/-- The derived target state computed before any remote mutation. -/
structure RcInfo where
  rcBranch : String
  rcReleaseTag : String
  releaseName : String
deriving DecidableEq, Repr

/-- The naming resolver `getRcGheInfo` from
`src/cards/createRc/getRcGheInfo.ts`: computes the next release candidate's
branch name, tag and title from the strategy, latest release, bump level and
the injectable current date. -/
def getRcGheInfo (project : Project) (latestRelease : Option GhGetReleaseResponse)
    (semverBumpLevel : BumpLevel) (injectedDate : String) : Except String RcInfo :=
  if project.versioningStrategy = .calver then
    .ok { rcBranch := "rc/" ++ injectedDate
          rcReleaseTag := "rc-" ++ injectedDate ++ "_0"
          releaseName := "Version " ++ injectedDate }
  else
    match latestRelease with
    | none =>
      .ok { rcBranch := "rc/0.0.1"
            rcReleaseTag := "rc-0.0.1"
            releaseName := "Version 0.0.1" }
    | some latest =>
      match getSemverTagParts latest.tag_name with
      | .error e => .error e
      | .ok tagParts =>
        let bumpedTagParts := getBumpedSemverTagParts tagParts semverBumpLevel
        let bumpedTag := toString bumpedTagParts.major ++ "."
          ++ toString bumpedTagParts.minor ++ "." ++ toString bumpedTagParts.patch
        .ok { rcBranch := "rc/" ++ bumpedTag
              rcReleaseTag := "rc-" ++ bumpedTag
              releaseName := "Version " ++ bumpedTag }

/-- The `latestCommit.commit` sub-object: the commit message. -/
structure GhCommitDetails where
  message : String
deriving DecidableEq, Repr

/-- The latest commit returned by `apiClient.getLatestCommit`. -/
structure GhCommit where
  sha : String
  html_url : String
  commit : GhCommitDetails
deriving DecidableEq, Repr

/-- The created ref returned by `apiClient.createRc.createRef`
(`GhCreateReferenceResponse`). -/
structure GhCreateReferenceResponse where
  ref : String
deriving DecidableEq, Repr

/-- The commit comparison returned by `apiClient.createRc.getComparison`. -/
structure GhComparison where
  html_url : String
  ahead_by : Nat
deriving DecidableEq, Repr

/-- The release returned by `apiClient.createRc.createRelease`. -/
structure GhCreateReleaseResponse where
  name : String
  html_url : String
  tag_name : String
deriving DecidableEq, Repr

/-- The `body` field of a structured provider error. -/
structure GheErrorBody where
  message : String
deriving DecidableEq, Repr

/-- An error rejected by a facade call. In the source this is an arbitrary
thrown value; the conflict check dereferences `error.body.message`, so the
`body` field may be absent (`none` models a plain Error or network failure
carrying no `body` property). -/
structure GheError where
  body : Option GheErrorBody
deriving DecidableEq, Repr

/-- How a `createGheRc` run can terminate abnormally. -/
inductive RunError where
  /-- the `ReleaseManagerAsAServiceError` thrown when `createRef` rejects
  with "Reference already exists". -/
  | conflict (message : String)
  /-- a facade error rethrown unchanged (the same error value). -/
  | remote (e : GheError)
  /-- the TypeError raised by reading `.message` on an absent `body`
  while inspecting a caught `createRef` error. -/
  | typeError
deriving DecidableEq, Repr

/-- One entry of the audit trail an orchestrator accumulates. -/
structure ResponseStep where
  message : String
  secondaryMessage : Option String := none
  link : Option String := none
deriving DecidableEq, Repr

/-- A remote call issued by `createGheRc` through the facade, with the
arguments it was given. -/
inductive FacadeCall where
  | getLatestCommit (defaultBranch : String)
  | createRef (mostRecentSha targetBranch : String)
  | getComparison (previousReleaseBranch nextReleaseBranch : String)
  | createRelease (nextGheInfo : RcInfo) (releaseBody : String)
deriving DecidableEq, Repr

/-- The hosting client facade (`RMaaSApiClient`): each operation is a single
remote round-trip that either returns a response or rejects with an error. -/
structure Facade where
  getLatestCommit : String → Except GheError GhCommit
  createRef : String → String → Except GheError GhCreateReferenceResponse
  getComparison : String → String → Except GheError GhComparison
  createRelease : RcInfo → String → Except GheError GhCreateReleaseResponse

/-- The payload handed to the success callback after all four steps. -/
structure SuccessCbArgs where
  gitHubReleaseUrl : String
  gitHubReleaseName : String
  comparisonUrl : String
  previousTag : Option String
  createdTag : String
deriving DecidableEq, Repr

/-- What a `createGheRc` run produces: the returned steps or the thrown
error, the facade calls issued in order, and the callback invocations. -/
structure RunOutcome where
  result : Except RunError (List ResponseStep)
  calls : List FacadeCall
  cbCalls : List SuccessCbArgs
deriving Repr

/-- The catch handler around `createRef`: the source reads
`error.body.message` on the caught value, so an error without a `body`
raises a TypeError; otherwise a "Reference already exists" message becomes
the conflict error naming the colliding branch with a link, and any other
error is rethrown unchanged. -/
def handleCreateRefError (rcBranch : String) (error : GheError) : RunError :=
  match error.body with
  | none => .typeError
  | some body =>
    if body.message = "Reference already exists" then
      .conflict ("Branch \"" ++ rcBranch ++ "\" already exists: .../tree/" ++ rcBranch)
    else
      .remote error

/-- The base of the commit comparison: the latest release's
`target_commitish` when a latest release exists, else the default branch. -/
def previousReleaseBranchOf (latestRelease : Option GhGetReleaseResponse)
    (defaultBranch : String) : String :=
  match latestRelease with
  | some latest => latest.target_commitish
  | none => defaultBranch

/-- The release body composed between steps 2 and 4. -/
def mkReleaseBody (comparison : GhComparison) (createdRefName : String) : String :=
  "**Compare** " ++ comparison.html_url
    ++ "\n\n**Ahead by** " ++ toString comparison.ahead_by
    ++ " commits\n\n**Release branch** " ++ createdRefName
    ++ "\n\n---\n\n"

/-- The Create-RC orchestrator `createGheRc` from
`src/cards/createRc/getRcGheInfo.ts`: fetch the latest commit, cut the
release branch, fetch the commit comparison, create the release, then invoke
the success callback when supplied. A throw at any step aborts the run:
the caller sees only the error, never the steps pushed so far. -/
def createGheRc (apiClient : Facade) (defaultBranch : String)
    (latestRelease : Option GhGetReleaseResponse) (nextGheInfo : RcInfo)
    (successCb : Bool) : RunOutcome :=
  match apiClient.getLatestCommit defaultBranch with
  | .error e => ⟨.error (.remote e), [.getLatestCommit defaultBranch], []⟩
  | .ok latestCommit =>
    let step1 : ResponseStep :=
      { message := "Fetched latest commit from \"" ++ defaultBranch ++ "\""
        secondaryMessage := some ("with message \"" ++ latestCommit.commit.message ++ "\"")
        link := some latestCommit.html_url }
    let mostRecentSha := latestCommit.sha
    let calls1 : List FacadeCall := [.getLatestCommit defaultBranch]
    match apiClient.createRef mostRecentSha nextGheInfo.rcBranch with
    | .error e =>
      ⟨.error (handleCreateRefError nextGheInfo.rcBranch e),
       calls1 ++ [.createRef mostRecentSha nextGheInfo.rcBranch], []⟩
    | .ok createdRef =>
      let step2 : ResponseStep :=
        { message := "Cut Release Branch"
          secondaryMessage := some ("with ref \"" ++ createdRef.ref ++ "\"") }
      let calls2 := calls1 ++ [.createRef mostRecentSha nextGheInfo.rcBranch]
      let previousReleaseBranch := previousReleaseBranchOf latestRelease defaultBranch
      let nextReleaseBranch := nextGheInfo.rcBranch
      match apiClient.getComparison previousReleaseBranch nextReleaseBranch with
      | .error e =>
        ⟨.error (.remote e),
         calls2 ++ [.getComparison previousReleaseBranch nextReleaseBranch], []⟩
      | .ok comparison =>
        let releaseBody := mkReleaseBody comparison createdRef.ref
        let step3 : ResponseStep :=
          { message := "Fetched commit comparision"
            secondaryMessage := some (previousReleaseBranch ++ "..." ++ nextReleaseBranch)
            link := some comparison.html_url }
        let calls3 := calls2 ++ [.getComparison previousReleaseBranch nextReleaseBranch]
        match apiClient.createRelease nextGheInfo releaseBody with
        | .error e =>
          ⟨.error (.remote e),
           calls3 ++ [.createRelease nextGheInfo releaseBody], []⟩
        | .ok createReleaseResponse =>
          let step4 : ResponseStep :=
            { message := "Created Release Candidate \"" ++ createReleaseResponse.name ++ "\""
              secondaryMessage := some ("with tag \"" ++ nextGheInfo.rcReleaseTag ++ "\"")
              link := some createReleaseResponse.html_url }
          let cbArgs : SuccessCbArgs :=
            { gitHubReleaseUrl := createReleaseResponse.html_url
              gitHubReleaseName := createReleaseResponse.name
              comparisonUrl := comparison.html_url
              previousTag := latestRelease.map GhGetReleaseResponse.tag_name
              createdTag := createReleaseResponse.tag_name }
          ⟨.ok [step1, step2, step3, step4],
           calls3 ++ [.createRelease nextGheInfo releaseBody],
           if successCb then [cbArgs] else []⟩

/-- C4: on every calver project the naming resolver ignores the latest
release and the bump level: it returns exactly
rcBranch = "rc/" ++ date, rcReleaseTag = "rc-" ++ date ++ "_0",
releaseName = "Version " ++ date, for every injected date. -/
theorem getRcGheInfo_calver_only_date
    (project : Project) (latestRelease : Option GhGetReleaseResponse)
    (semverBumpLevel : BumpLevel) (injectedDate : String)
    (h : project.versioningStrategy = .calver) :
    getRcGheInfo project latestRelease semverBumpLevel injectedDate
      = .ok { rcBranch := "rc/" ++ injectedDate
              rcReleaseTag := "rc-" ++ injectedDate ++ "_0"
              releaseName := "Version " ++ injectedDate } := by
  simp [getRcGheInfo, h]

/-- Witness for C4: at date "2024.03.01" a calver project with a latest
release and a minor bump yields rc/2024.03.01, rc-2024.03.01_0,
Version 2024.03.01. -/
theorem getRcGheInfo_calver_only_date_witness :
    getRcGheInfo { owner := "org", repo := "repo", versioningStrategy := .calver }
      (some { tag_name := "version-1.2.3", target_commitish := "master"
              html_url := "https://ghe.example.com/releases/7" })
      BumpLevel.minor "2024.03.01"
      = .ok { rcBranch := "rc/2024.03.01"
              rcReleaseTag := "rc-2024.03.01_0"
              releaseName := "Version 2024.03.01" } :=
  getRcGheInfo_calver_only_date _ _ _ _ rfl

/-- C5 counterexample: even when a prior tag with same-day sequence number 0
already exists (the latest release's tag is "rc-2024.03.01_0"), the resolver
returns that very same tag again — the sequence component is 0, not the next
unused suffix and not strictly greater than the existing 0. -/
theorem getRcGheInfo_calver_sequence_counterexample :
    (getRcGheInfo { owner := "org", repo := "repo", versioningStrategy := .calver }
        (some { tag_name := "rc-2024.03.01_0", target_commitish := "rc/2024.03.01"
                html_url := "https://ghe.example.com/releases/8" })
        BumpLevel.minor "2024.03.01").map RcInfo.rcReleaseTag
      = .ok "rc-2024.03.01_0" := by
  rfl

/-- C5 amended: for calver projects the sequence component of the computed
release-candidate tag is always the literal 0, regardless of the latest
release: the tag is "rc-" ++ date ++ "_0" for every latest release, bump
level and date. -/
theorem getRcGheInfo_calver_sequence_always_zero
    (project : Project) (latestRelease : Option GhGetReleaseResponse)
    (semverBumpLevel : BumpLevel) (injectedDate : String)
    (h : project.versioningStrategy = .calver) :
    (getRcGheInfo project latestRelease semverBumpLevel injectedDate).map
        RcInfo.rcReleaseTag
      = .ok ("rc-" ++ injectedDate ++ "_0") := by
  simp [getRcGheInfo, h, Except.map]

/-- Witness for the C5 amended theorem: a second candidate computed on
2024.03.01 right after rc-2024.03.01_0 was released again gets suffix 0. -/
theorem getRcGheInfo_calver_sequence_always_zero_witness :
    (getRcGheInfo { owner := "org", repo := "repo", versioningStrategy := .calver }
        (some { tag_name := "rc-2024.03.01_0", target_commitish := "rc/2024.03.01"
                html_url := "https://ghe.example.com/releases/9" })
        BumpLevel.patch "2024.03.01").map RcInfo.rcReleaseTag
      = .ok ("rc-" ++ "2024.03.01" ++ "_0") :=
  getRcGheInfo_calver_sequence_always_zero _ _ _ _ rfl

/-- C6: on a semver project with no latest release the naming resolver
returns exactly rc/0.0.1, rc-0.0.1, Version 0.0.1, for every bump level. -/
theorem getRcGheInfo_semver_no_latest
    (project : Project) (semverBumpLevel : BumpLevel) (injectedDate : String)
    (h : project.versioningStrategy = .semver) :
    getRcGheInfo project none semverBumpLevel injectedDate
      = .ok { rcBranch := "rc/0.0.1"
              rcReleaseTag := "rc-0.0.1"
              releaseName := "Version 0.0.1" } := by
  simp [getRcGheInfo, h]

/-- Witness for C6: a semver project with no latest release and a major bump
request still yields 0.0.1. -/
theorem getRcGheInfo_semver_no_latest_witness :
    getRcGheInfo { owner := "org", repo := "repo", versioningStrategy := .semver }
      none BumpLevel.major "2024.03.01"
      = .ok { rcBranch := "rc/0.0.1"
              rcReleaseTag := "rc-0.0.1"
              releaseName := "Version 0.0.1" } :=
  getRcGheInfo_semver_no_latest _ _ _ rfl

/-- A commit stub for concrete runs. -/
def okCommit : GhCommit :=
  { sha := "sha1", html_url := "https://ghe.example.com/commit/sha1"
    commit := { message := "initial commit" } }

/-- A created-ref stub for concrete runs. -/
def okRef : GhCreateReferenceResponse := { ref := "refs/heads/rc/1.2.3" }

/-- A comparison stub for concrete runs. -/
def okComparison : GhComparison :=
  { html_url := "https://ghe.example.com/compare/sample", ahead_by := 5 }

/-- A created-release stub for concrete runs. -/
def okRelease : GhCreateReleaseResponse :=
  { name := "Version 1.2.3", html_url := "https://ghe.example.com/releases/10"
    tag_name := "rc-1.2.3" }

/-- A candidate info stub for concrete runs. -/
def sampleInfo : RcInfo :=
  { rcBranch := "rc/1.2.3", rcReleaseTag := "rc-1.2.3", releaseName := "Version 1.2.3" }

/-- A facade stub with all calls succeeding. -/
def happyFacade : Facade :=
  { getLatestCommit := fun _ => .ok okCommit
    createRef := fun _ _ => .ok okRef
    getComparison := fun _ _ => .ok okComparison
    createRelease := fun _ _ => .ok okRelease }

/-- The structured error a provider returns when the ref already exists. -/
def conflictGheError : GheError := { body := some { message := "Reference already exists" } }

/-- A facade stub whose `createRef` rejects with "Reference already exists". -/
def conflictFacade : Facade :=
  { happyFacade with createRef := fun _ _ => .error conflictGheError }

/-- A structured provider error other than the ref conflict. -/
def remoteGheError : GheError := { body := some { message := "Internal Server Error" } }

/-- A facade stub whose `getComparison` rejects with a remote error. -/
def failCompareFacade : Facade :=
  { happyFacade with getComparison := fun _ _ => .error remoteGheError }

/-- An error value carrying no `body` property (a plain Error). -/
def noBodyGheError : GheError := { body := none }

/-- A facade stub whose `createRef` rejects with a body-less error. -/
def noBodyFacade : Facade :=
  { happyFacade with createRef := fun _ _ => .error noBodyGheError }

/-- C1: when `createRef` rejects with "Reference already exists", the run
terminates with the conflict error naming the colliding candidate branch
together with a navigable link, no `createRelease` and no `getComparison`
call is performed, and the success callback is never invoked. -/
theorem createGheRc_conflict_on_existing_ref
    (apiClient : Facade) (defaultBranch : String)
    (latestRelease : Option GhGetReleaseResponse) (nextGheInfo : RcInfo)
    (successCb : Bool) (latestCommit : GhCommit) (e : GheError) (b : GheErrorBody)
    (h1 : apiClient.getLatestCommit defaultBranch = .ok latestCommit)
    (h2 : apiClient.createRef latestCommit.sha nextGheInfo.rcBranch = .error e)
    (h3 : e.body = some b)
    (h4 : b.message = "Reference already exists") :
    (createGheRc apiClient defaultBranch latestRelease nextGheInfo successCb).result
      = .error (.conflict ("Branch \"" ++ nextGheInfo.rcBranch
          ++ "\" already exists: .../tree/" ++ nextGheInfo.rcBranch))
    ∧ (∀ call ∈ (createGheRc apiClient defaultBranch latestRelease nextGheInfo successCb).calls,
        (∀ info rb, call ≠ .createRelease info rb)
        ∧ (∀ base head, call ≠ .getComparison base head))
    ∧ (createGheRc apiClient defaultBranch latestRelease nextGheInfo successCb).cbCalls
        = [] := by
  have hh : handleCreateRefError nextGheInfo.rcBranch e
      = .conflict ("Branch \"" ++ nextGheInfo.rcBranch
          ++ "\" already exists: .../tree/" ++ nextGheInfo.rcBranch) := by
    simp [handleCreateRefError, h3, h4]
  refine ⟨?_, ?_, ?_⟩
  · simp [createGheRc, h1, h2, hh]
  · intro call hc
    simp [createGheRc, h1, h2, hh] at hc
    rcases hc with hc | hc <;> subst hc <;>
      exact ⟨fun _ _ => by simp, fun _ _ => by simp⟩
  · simp [createGheRc, h1, h2, hh]

/-- Witness for C1: the conflict facade stub at concrete inputs. -/
theorem createGheRc_conflict_on_existing_ref_witness :
    (createGheRc conflictFacade "main" none sampleInfo true).result
      = .error (.conflict ("Branch \"" ++ sampleInfo.rcBranch
          ++ "\" already exists: .../tree/" ++ sampleInfo.rcBranch))
    ∧ (∀ call ∈ (createGheRc conflictFacade "main" none sampleInfo true).calls,
        (∀ info rb, call ≠ .createRelease info rb)
        ∧ (∀ base head, call ≠ .getComparison base head))
    ∧ (createGheRc conflictFacade "main" none sampleInfo true).cbCalls = [] :=
  createGheRc_conflict_on_existing_ref conflictFacade "main" none sampleInfo true
    okCommit conflictGheError { message := "Reference already exists" } rfl rfl rfl rfl

/-- C2: when every facade call succeeds, the returned step sequence has
exactly the 4 entries in the fixed order (fetched latest commit, cut release
branch, commit comparison, created release), and the success callback — when
supplied — is invoked exactly once with the created release's tag name and
HTML URL plus the comparison URL and the previous release's tag, if any. -/
theorem createGheRc_success_four_steps
    (apiClient : Facade) (defaultBranch : String)
    (latestRelease : Option GhGetReleaseResponse) (nextGheInfo : RcInfo)
    (successCb : Bool) (latestCommit : GhCommit)
    (createdRef : GhCreateReferenceResponse) (comparison : GhComparison)
    (createReleaseResponse : GhCreateReleaseResponse)
    (h1 : apiClient.getLatestCommit defaultBranch = .ok latestCommit)
    (h2 : apiClient.createRef latestCommit.sha nextGheInfo.rcBranch = .ok createdRef)
    (h3 : apiClient.getComparison (previousReleaseBranchOf latestRelease defaultBranch)
            nextGheInfo.rcBranch = .ok comparison)
    (h4 : apiClient.createRelease nextGheInfo (mkReleaseBody comparison createdRef.ref)
            = .ok createReleaseResponse) :
    (createGheRc apiClient defaultBranch latestRelease nextGheInfo successCb).result
      = .ok
        [ { message := "Fetched latest commit from \"" ++ defaultBranch ++ "\""
            secondaryMessage := some ("with message \""
              ++ latestCommit.commit.message ++ "\"")
            link := some latestCommit.html_url }
        , { message := "Cut Release Branch"
            secondaryMessage := some ("with ref \"" ++ createdRef.ref ++ "\"")
            link := none }
        , { message := "Fetched commit comparision"
            secondaryMessage := some (previousReleaseBranchOf latestRelease defaultBranch
              ++ "..." ++ nextGheInfo.rcBranch)
            link := some comparison.html_url }
        , { message := "Created Release Candidate \""
              ++ createReleaseResponse.name ++ "\""
            secondaryMessage := some ("with tag \"" ++ nextGheInfo.rcReleaseTag ++ "\"")
            link := some createReleaseResponse.html_url } ]
    ∧ (successCb = true →
        (createGheRc apiClient defaultBranch latestRelease nextGheInfo successCb).cbCalls
          = [{ gitHubReleaseUrl := createReleaseResponse.html_url
               gitHubReleaseName := createReleaseResponse.name
               comparisonUrl := comparison.html_url
               previousTag := latestRelease.map GhGetReleaseResponse.tag_name
               createdTag := createReleaseResponse.tag_name }]) := by
  constructor
  · simp [createGheRc, h1, h2, h3, h4]
  · intro hcb
    subst hcb
    simp [createGheRc, h1, h2, h3, h4]

/-- A latest-release stub for concrete runs. -/
def sampleLatestRelease : GhGetReleaseResponse :=
  { tag_name := "version-1.2.2", target_commitish := "main"
    html_url := "https://ghe.example.com/releases/9" }

/-- Witness for C2: the all-success facade stub at concrete inputs, with a
latest release present and the callback supplied. -/
theorem createGheRc_success_four_steps_witness :
    (createGheRc happyFacade "main" (some sampleLatestRelease)
        sampleInfo true).result
      = .ok
        [ { message := "Fetched latest commit from \"" ++ "main" ++ "\""
            secondaryMessage := some ("with message \"" ++ okCommit.commit.message ++ "\"")
            link := some okCommit.html_url }
        , { message := "Cut Release Branch"
            secondaryMessage := some ("with ref \"" ++ okRef.ref ++ "\"")
            link := none }
        , { message := "Fetched commit comparision"
            secondaryMessage := some (previousReleaseBranchOf
              (some sampleLatestRelease) "main" ++ "..." ++ sampleInfo.rcBranch)
            link := some okComparison.html_url }
        , { message := "Created Release Candidate \"" ++ okRelease.name ++ "\""
            secondaryMessage := some ("with tag \"" ++ sampleInfo.rcReleaseTag ++ "\"")
            link := some okRelease.html_url } ]
    ∧ (true = true →
        (createGheRc happyFacade "main" (some sampleLatestRelease)
            sampleInfo true).cbCalls
          = [{ gitHubReleaseUrl := okRelease.html_url
               gitHubReleaseName := okRelease.name
               comparisonUrl := okComparison.html_url
               previousTag := (some sampleLatestRelease).map GhGetReleaseResponse.tag_name
               createdTag := okRelease.tag_name }]) :=
  createGheRc_success_four_steps happyFacade "main" (some sampleLatestRelease)
    sampleInfo true okCommit okRef okComparison okRelease rfl rfl rfl rfl

/-- C3: any remote error other than the "Reference already exists" conflict,
raised at any of the four steps, is propagated to the caller unchanged (the
same error value), no subsequent remote step runs (the call trace stops at
the failing call), the collected steps are discarded (the result carries
only the error), and the success callback is never invoked. -/
theorem createGheRc_remote_error_propagation
    (apiClient : Facade) (defaultBranch : String)
    (latestRelease : Option GhGetReleaseResponse) (nextGheInfo : RcInfo)
    (successCb : Bool) :
    (∀ e, apiClient.getLatestCommit defaultBranch = .error e →
        createGheRc apiClient defaultBranch latestRelease nextGheInfo successCb
          = ⟨.error (.remote e), [.getLatestCommit defaultBranch], []⟩)
    ∧ (∀ latestCommit e b,
        apiClient.getLatestCommit defaultBranch = .ok latestCommit →
        apiClient.createRef latestCommit.sha nextGheInfo.rcBranch = .error e →
        e.body = some b → b.message ≠ "Reference already exists" →
        createGheRc apiClient defaultBranch latestRelease nextGheInfo successCb
          = ⟨.error (.remote e),
             [.getLatestCommit defaultBranch,
              .createRef latestCommit.sha nextGheInfo.rcBranch], []⟩)
    ∧ (∀ latestCommit createdRef e,
        apiClient.getLatestCommit defaultBranch = .ok latestCommit →
        apiClient.createRef latestCommit.sha nextGheInfo.rcBranch = .ok createdRef →
        apiClient.getComparison (previousReleaseBranchOf latestRelease defaultBranch)
            nextGheInfo.rcBranch = .error e →
        createGheRc apiClient defaultBranch latestRelease nextGheInfo successCb
          = ⟨.error (.remote e),
             [.getLatestCommit defaultBranch,
              .createRef latestCommit.sha nextGheInfo.rcBranch,
              .getComparison (previousReleaseBranchOf latestRelease defaultBranch)
                nextGheInfo.rcBranch], []⟩)
    ∧ (∀ latestCommit createdRef comparison e,
        apiClient.getLatestCommit defaultBranch = .ok latestCommit →
        apiClient.createRef latestCommit.sha nextGheInfo.rcBranch = .ok createdRef →
        apiClient.getComparison (previousReleaseBranchOf latestRelease defaultBranch)
            nextGheInfo.rcBranch = .ok comparison →
        apiClient.createRelease nextGheInfo (mkReleaseBody comparison createdRef.ref)
            = .error e →
        createGheRc apiClient defaultBranch latestRelease nextGheInfo successCb
          = ⟨.error (.remote e),
             [.getLatestCommit defaultBranch,
              .createRef latestCommit.sha nextGheInfo.rcBranch,
              .getComparison (previousReleaseBranchOf latestRelease defaultBranch)
                nextGheInfo.rcBranch,
              .createRelease nextGheInfo (mkReleaseBody comparison createdRef.ref)],
             []⟩) := by
  refine ⟨?_, ?_, ?_, ?_⟩
  · intro e h1
    simp [createGheRc, h1]
  · intro latestCommit e b h1 h2 h3 h4
    simp [createGheRc, h1, h2, handleCreateRefError, h3, h4]
  · intro latestCommit createdRef e h1 h2 h3
    simp [createGheRc, h1, h2, h3]
  · intro latestCommit createdRef comparison e h1 h2 h3 h4
    simp [createGheRc, h1, h2, h3, h4]

/-- Witness for C3: with a facade whose `getComparison` rejects with an
"Internal Server Error", the run aborts with that same error value, the
trace stops at the comparison call, no steps are returned and the callback
is not invoked. -/
theorem createGheRc_remote_error_propagation_witness :
    createGheRc failCompareFacade "main" none sampleInfo true
      = ⟨.error (.remote remoteGheError),
         [.getLatestCommit "main",
          .createRef okCommit.sha sampleInfo.rcBranch,
          .getComparison (previousReleaseBranchOf none "main") sampleInfo.rcBranch],
         []⟩ :=
  (createGheRc_remote_error_propagation failCompareFacade "main" none sampleInfo
      true).2.2.1 okCommit okRef remoteGheError rfl rfl rfl

/-- C9: when `createRef` rejects with an error that carries no `body`
property, the orchestrator does not rethrow the original error: reading
`error.body.message` raises a TypeError, so the run fails with the
property-access error and never with the unchanged original error. -/
theorem createGheRc_missing_body_typeError
    (apiClient : Facade) (defaultBranch : String)
    (latestRelease : Option GhGetReleaseResponse) (nextGheInfo : RcInfo)
    (successCb : Bool) (latestCommit : GhCommit) (e : GheError)
    (h1 : apiClient.getLatestCommit defaultBranch = .ok latestCommit)
    (h2 : apiClient.createRef latestCommit.sha nextGheInfo.rcBranch = .error e)
    (h3 : e.body = none) :
    (createGheRc apiClient defaultBranch latestRelease nextGheInfo successCb).result
      = .error .typeError
    ∧ ∀ e2, (createGheRc apiClient defaultBranch latestRelease nextGheInfo
        successCb).result ≠ .error (.remote e2) := by
  have hh : handleCreateRefError nextGheInfo.rcBranch e = .typeError := by
    simp [handleCreateRefError, h3]
  constructor
  · simp [createGheRc, h1, h2, hh]
  · intro e2
    simp [createGheRc, h1, h2, hh]

/-- Witness for C9: a facade whose `createRef` rejects with a body-less
error makes the run fail with the TypeError, not the original error. -/
theorem createGheRc_missing_body_typeError_witness :
    (createGheRc noBodyFacade "main" none sampleInfo true).result
      = .error .typeError
    ∧ ∀ e2, (createGheRc noBodyFacade "main" none sampleInfo true).result
        ≠ .error (.remote e2) :=
  createGheRc_missing_body_typeError noBodyFacade "main" none sampleInfo true
    okCommit noBodyGheError rfl rfl rfl

/-- C10: when no latest release exists, the comparison requested from the
facade is defaultBranch...rcBranch, and the release body handed to
`createRelease` embeds the comparison's URL, its ahead-by count and the
created ref. -/
theorem createGheRc_no_latest_compares_default_branch
    (apiClient : Facade) (defaultBranch : String) (nextGheInfo : RcInfo)
    (successCb : Bool) (latestCommit : GhCommit)
    (createdRef : GhCreateReferenceResponse) (comparison : GhComparison)
    (h1 : apiClient.getLatestCommit defaultBranch = .ok latestCommit)
    (h2 : apiClient.createRef latestCommit.sha nextGheInfo.rcBranch = .ok createdRef)
    (h3 : apiClient.getComparison defaultBranch nextGheInfo.rcBranch = .ok comparison) :
    FacadeCall.getComparison defaultBranch nextGheInfo.rcBranch
      ∈ (createGheRc apiClient defaultBranch none nextGheInfo successCb).calls
    ∧ FacadeCall.createRelease nextGheInfo
        ("**Compare** " ++ comparison.html_url
          ++ "\n\n**Ahead by** " ++ toString comparison.ahead_by
          ++ " commits\n\n**Release branch** " ++ createdRef.ref
          ++ "\n\n---\n\n")
      ∈ (createGheRc apiClient defaultBranch none nextGheInfo successCb).calls := by
  have hbody : mkReleaseBody comparison createdRef.ref
      = "**Compare** " ++ comparison.html_url
          ++ "\n\n**Ahead by** " ++ toString comparison.ahead_by
          ++ " commits\n\n**Release branch** " ++ createdRef.ref
          ++ "\n\n---\n\n" := rfl
  rw [← hbody]
  cases h4 : apiClient.createRelease nextGheInfo (mkReleaseBody comparison createdRef.ref) <;>
    exact ⟨by simp [createGheRc, previousReleaseBranchOf, h1, h2, h3, h4],
           by simp [createGheRc, previousReleaseBranchOf, h1, h2, h3, h4]⟩

/-- Witness for C10: the all-success facade with no latest release compares
main...rc/1.2.3 and passes the composed body to `createRelease`. -/
theorem createGheRc_no_latest_compares_default_branch_witness :
    FacadeCall.getComparison "main" sampleInfo.rcBranch
      ∈ (createGheRc happyFacade "main" none sampleInfo false).calls
    ∧ FacadeCall.createRelease sampleInfo
        ("**Compare** " ++ okComparison.html_url
          ++ "\n\n**Ahead by** " ++ toString okComparison.ahead_by
          ++ " commits\n\n**Release branch** " ++ okRef.ref
          ++ "\n\n---\n\n")
      ∈ (createGheRc happyFacade "main" none sampleInfo false).calls :=
  createGheRc_no_latest_compares_default_branch happyFacade "main" sampleInfo false
    okCommit okRef okComparison rfl rfl rfl

/-- A remote call issued by the Promote-RC orchestrator. -/
inductive PromoteCall where
  | markReleaseAsFull (tagName : String)
  | mergeIntoMainline (branch : String)
deriving DecidableEq, Repr

/-- How a Promote-RC run can terminate abnormally. -/
inductive PromoteError where
  /-- the "nothing to promote" signal: the orchestrator was invoked with
  state violating its precondition, before any remote call. -/
  | precondition (message : String)
  /-- a provider-side failure propagated unchanged. -/
  | remote (e : GheError)
deriving DecidableEq, Repr

/-- The facade slice the Promote-RC workflow drives. -/
structure PromoteFacade where
  markReleaseAsFull : String → Except GheError GhGetReleaseResponse
  mergeIntoMainline : String → Except GheError GhCreateReferenceResponse

/-- What a Promote-RC run produces: the steps or the error, and the facade
calls issued in order. -/
structure PromoteOutcome where
  result : Except PromoteError (List ResponseStep)
  calls : List PromoteCall
deriving Repr

/-- Modelled from the spec: the Promote-RC orchestrator (`PromoteRc` and its
workflow body) is not under `src/` — only its tests are. Per the spec,
preconditions: a latestRelease must exist; if no latest release exists, the
orchestrator must not attempt remote calls and instead signal "nothing to
promote". States: ValidatePrerelease, MarkReleaseAsFull, optional
MergeIntoMainline, Done; any remote failure propagates unchanged. -/
def promoteRc (facade : PromoteFacade) (latestRelease : Option GhGetReleaseResponse)
    (mergeIntoMainline : Bool) : PromoteOutcome :=
  match latestRelease with
  | none => ⟨.error (.precondition "nothing to promote"), []⟩
  | some latest =>
    match facade.markReleaseAsFull latest.tag_name with
    | .error e => ⟨.error (.remote e), [.markReleaseAsFull latest.tag_name]⟩
    | .ok promoted =>
      let step1 : ResponseStep :=
        { message := "Promoted \"" ++ promoted.tag_name ++ "\""
          link := some promoted.html_url }
      if mergeIntoMainline then
        match facade.mergeIntoMainline latest.target_commitish with
        | .error e =>
          ⟨.error (.remote e),
           [.markReleaseAsFull latest.tag_name,
            .mergeIntoMainline latest.target_commitish]⟩
        | .ok _ =>
          ⟨.ok [step1, { message := "Merged release branch into mainline" }],
           [.markReleaseAsFull latest.tag_name,
            .mergeIntoMainline latest.target_commitish]⟩
      else
        ⟨.ok [step1], [.markReleaseAsFull latest.tag_name]⟩

/-- C7: invoked with no latest release, the Promote-RC workflow issues no
facade call at all and returns the "nothing to promote" precondition signal
instead of a normal result, for every facade and merge option. -/
theorem promoteRc_no_latest_release
    (facade : PromoteFacade) (mergeIntoMainline : Bool) :
    promoteRc facade none mergeIntoMainline
      = ⟨.error (.precondition "nothing to promote"), []⟩ := by
  rfl

/-- The state of the HTTP response backing a server-sent-events stream:
the chunks delivered so far and whether `res.end()` has been called. Per
the Node.js stream contract, a write issued after the response has ended
is not delivered. -/
structure StreamState where
  chunks : List String
  ended : Bool
deriving DecidableEq, Repr

/-- The response right after `createEventStream` wrote its headers. -/
def initialStream : StreamState := { chunks := [], ended := false }

/-- `res.write` of one formatted chunk: delivered only while the response
is still open. -/
def resWrite (res : StreamState) (chunk : String) : StreamState :=
  if res.ended then res else { res with chunks := res.chunks ++ [chunk] }

/-- `res.end()`: closes the response. -/
def resEnd (res : StreamState) : StreamState := { res with ended := true }

/-- The `send` helper inside `createEventStream`: formats the event as
"event: TYPE\ndata: DATA\n\n" and writes it to the response. -/
def send (res : StreamState) (ty data : String) : StreamState :=
  resWrite res ("event: " ++ ty ++ "\ndata: " ++ data ++ "\n\n")

/-- The result object delivered with a `finish` event. -/
structure SyncResult where
  updated : Bool
deriving DecidableEq, Repr

/-- JSON.stringify of a plain string (escaping elided). -/
def stringifyString (s : String) : String := "\"" ++ s ++ "\""

/-- JSON.stringify of the finish result. -/
def stringifySyncResult (r : SyncResult) : String :=
  "\x7b\"updated\":" ++ (if r.updated then "true" else "false") ++ "\x7d"

/-- The three callbacks `createEventStream` returns
(`DocsSynchronizerSyncOpts`), as response-state transformers. -/
structure DocsSynchronizerSyncOpts where
  log : String → StreamState → StreamState
  error : String → StreamState → StreamState
  finish : SyncResult → StreamState → StreamState

/-- The event-stream adapter `createEventStream` from the techdocs backend
router: `log` writes a log event; `error` writes an error event carrying the
message and ends the response; `finish` writes a finish event carrying the
result and ends the response. -/
def createEventStream : DocsSynchronizerSyncOpts :=
  { log := fun data res => send res "log" (stringifyString data)
    error := fun e res => resEnd (send res "error" (stringifyString e))
    finish := fun result res => resEnd (send res "finish" (stringifySyncResult result)) }

/-- One invocation of a callback returned by `createEventStream`. -/
inductive StreamEvent where
  | log (data : String)
  | error (message : String)
  | finish (result : SyncResult)
deriving DecidableEq, Repr

/-- Whether an invocation is of a terminal callback. -/
def isTerminal : StreamEvent → Bool
  | .log _ => false
  | .error _ => true
  | .finish _ => true

/-- Dispatch one invocation through the `createEventStream` callbacks. -/
def applyStreamEvent (res : StreamState) : StreamEvent → StreamState
  | .log data => createEventStream.log data res
  | .error message => createEventStream.error message res
  | .finish result => createEventStream.finish result res

/-- Run a whole sequence of invocations against a fresh event stream. -/
def runStream (events : List StreamEvent) : StreamState :=
  events.foldl applyStreamEvent initialStream

theorem applyStreamEvent_ended (res : StreamState) (e : StreamEvent) :
    (applyStreamEvent res e).ended = (res.ended || isTerminal e) := by
  cases e <;> cases h : res.ended <;>
    simp [applyStreamEvent, createEventStream, send, resWrite, resEnd, isTerminal, h]

theorem applyStreamEvent_of_ended (res : StreamState) (e : StreamEvent)
    (h : res.ended = true) : applyStreamEvent res e = res := by
  obtain ⟨chunks, ended⟩ := res
  simp only at h
  subst h
  cases e <;> simp [applyStreamEvent, createEventStream, send, resWrite, resEnd]

theorem foldl_applyStreamEvent_of_ended (res : StreamState)
    (events : List StreamEvent) (h : res.ended = true) :
    events.foldl applyStreamEvent res = res := by
  induction events with
  | nil => rfl
  | cons e rest ih =>
    rw [List.foldl_cons, applyStreamEvent_of_ended res e h]
    exact ih

/-- C8: a call to `error` or `finish` closes the stream, and after such a
terminal event nothing further is ever written to the response: the response
after any sequence of later `log`/`error`/`finish` invocations equals the
response right after the terminal event. Moreover exactly the `error` and
`finish` callbacks end the response: an invocation leaves the response ended
precisely when it was already ended or the invocation is terminal. -/
theorem createEventStream_terminal_closes
    (pre suffix : List StreamEvent) (t : StreamEvent)
    (ht : isTerminal t = true) :
    runStream (pre ++ t :: suffix) = runStream (pre ++ [t])
    ∧ (runStream (pre ++ [t])).ended = true
    ∧ ∀ (res : StreamState) (e : StreamEvent),
        (applyStreamEvent res e).ended = (res.ended || isTerminal e) := by
  have hend : (runStream (pre ++ [t])).ended = true := by
    have : runStream (pre ++ [t])
        = applyStreamEvent (pre.foldl applyStreamEvent initialStream) t := by
      simp [runStream, List.foldl_append]
    rw [this, applyStreamEvent_ended, ht, Bool.or_true]
  refine ⟨?_, hend, applyStreamEvent_ended⟩
  have hsplit : pre ++ t :: suffix = (pre ++ [t]) ++ suffix := by simp
  rw [hsplit]
  show ((pre ++ [t]) ++ suffix).foldl applyStreamEvent initialStream
      = runStream (pre ++ [t])
  rw [List.foldl_append]
  exact foldl_applyStreamEvent_of_ended _ _ hend

/-- Witness for C8: after a `finish` with updated = true, a later `log` and
a later `error` write nothing more to the response. -/
theorem createEventStream_terminal_closes_witness :
    runStream ([StreamEvent.log "built"]
        ++ StreamEvent.finish { updated := true }
          :: [StreamEvent.log "late", StreamEvent.error "late error"])
      = runStream ([StreamEvent.log "built"] ++ [StreamEvent.finish { updated := true }])
    ∧ (runStream ([StreamEvent.log "built"]
        ++ [StreamEvent.finish { updated := true }])).ended = true
    ∧ ∀ (res : StreamState) (e : StreamEvent),
        (applyStreamEvent res e).ended = (res.ended || isTerminal e) :=
  createEventStream_terminal_closes [StreamEvent.log "built"]
    [StreamEvent.log "late", StreamEvent.error "late error"]
    (StreamEvent.finish { updated := true }) rfl
